import Mathlib

/-!
Verification of the campaign-improvement prediction engine of MailMindAI.

The definitions below are a shallow embedding of `src/api/ml_model_simple.py`
(class `EmailCampaignMLModel`), plus the deterministic fallback path of
`src/api/ml_model.py` where a claim refers to it.  Python floats are modelled
as rationals (ℚ); `random.uniform(a, b)` draws are modelled as explicit
jitter parameters, quantified over where a claim constrains them to a range;
Python `round(x, n)` is modelled as rounding `x * 10^n` to the nearest
integer; dictionary field access with a default (`d.get(k, v)`) is modelled
with `Option`; a `TypeError` raised by arithmetic or comparison on a
non-numeric value is modelled with `Except`.
-/

namespace MailMind

/-- A Python value stored in a campaign-data dictionary field: a number
(int/float, modelled as ℚ) or a non-numeric value such as a string. -/
inductive PyVal where
  | num : ℚ → PyVal
  | str : String → PyVal
deriving DecidableEq, Repr

/-- An input campaign record (a Python dict).  `none` models an absent key. -/
structure CampaignData where
  emails_sent : Option PyVal
  open_rate : Option PyVal
  click_rate : Option PyVal
  conversion_rate : Option PyVal
  bounce_rate : Option PyVal
  unsubscribe_rate : Option PyVal
  target_market : Option String
  target_industry : Option String
  target_company_size : Option String
  age_range : Option String
deriving DecidableEq, Repr

/-- Python `round(x, n)`: round `x` to `n` decimal places (nearest integer in
units of `10^-n`). -/
def roundTo (n : ℕ) (x : ℚ) : ℚ := ((round (x * 10 ^ n) : ℤ) : ℚ) / 10 ^ n

/-- `self.benchmarks` from `EmailCampaignMLModel.__init__` (lines 23-27). -/
def benchmarks : List (String × ℚ) :=
  [("open_rate", 22), ("click_rate", 7/2), ("conversion_rate", 2)]

/-- `industry_multipliers` inside `predict_improvements` (lines 175-181);
note this table has no "Unknown" key. -/
def industry_multipliers : List (String × ℚ) :=
  [("Technology", 6/5), ("Healthcare", 11/10), ("Finance", 1),
   ("Retail", 13/10), ("Education", 11/10)]

/-- `industry_multipliers` inside `create_synthetic_improvement_data`
(lines 73-80); this table carries an explicit "Unknown" entry. -/
def industry_multipliers_training : List (String × ℚ) :=
  [("Technology", 6/5), ("Healthcare", 11/10), ("Finance", 1),
   ("Retail", 13/10), ("Education", 11/10), ("Unknown", 1)]

/-- `size_adjustments` inside `predict_improvements` (lines 187-192). -/
def size_adjustments : List (String × ℚ) :=
  [("Small (1-50)", 11/10), ("Medium (51-200)", 1),
   ("Large (201-1000)", 9/10), ("Enterprise (1000+)", 4/5)]

/-- The three per-metric jitter draws `random.uniform(...)` of one call. -/
structure Jitter where
  open_j : ℚ
  click_j : ℚ
  conv_j : ℚ
deriving DecidableEq, Repr

/-- `calculate_confidence` (lines 227-246), at the level of the four numeric
values read out of the dict (`campaign_data.get(field, 0)`, a missing field
read as 0). -/
def calculate_confidence (emails_sent open_rate click_rate conversion_rate : ℚ) : ℚ :=
  let confidence : ℚ := 7/10
  let completeness : ℚ :=
    (((if 0 < emails_sent then (1:ℚ) else 0) + (if 0 < open_rate then 1 else 0)
      + (if 0 < click_rate then 1 else 0) + (if 0 < conversion_rate then 1 else 0)) / 4)
  let confidence := confidence * completeness
  let confidence :=
    if 10000 < emails_sent then confidence + 1/10
    else if emails_sent < 1000 then confidence - 1/10
    else confidence
  max (3/10) (min (19/20) confidence)

/-- The record returned by `predict_improvements` (lines 205-211 / 219-225). -/
structure Predictions where
  open_rate_improvement : ℚ
  click_rate_improvement : ℚ
  conversion_rate_improvement : ℚ
  confidence_score : ℚ
  prediction_method : String
deriving DecidableEq, Repr

/-- The dict literal built at lines 205-211 (and 219-225), as a key-value
list in its construction order. -/
def Predictions.toDict (p : Predictions) : List (String × PyVal) :=
  [("open_rate_improvement", .num p.open_rate_improvement),
   ("click_rate_improvement", .num p.click_rate_improvement),
   ("conversion_rate_improvement", .num p.conversion_rate_improvement),
   ("confidence_score", .num p.confidence_score),
   ("prediction_method", .str p.prediction_method)]

/-- The body of the `try` block of `predict_improvements` (lines 170-211), at
the level of the four numeric values read out of the dict and the two
categorical strings. -/
def predictCore (open_rate click_rate conversion_rate emails_sent : ℚ)
    (industry company_size : String) (j : Jitter) : Predictions :=
  let open_gap := max 0 ((benchmarks.lookup "open_rate").getD 0 - open_rate)
  let click_gap := max 0 ((benchmarks.lookup "click_rate").getD 0 - click_rate)
  let conversion_gap := max 0 ((benchmarks.lookup "conversion_rate").getD 0 - conversion_rate)
  let multiplier := (industry_multipliers.lookup industry).getD 1
  let size_adj := (size_adjustments.lookup company_size).getD 1
  let open_improvement := min 45 (max 5 (open_gap * multiplier * size_adj * j.open_j))
  let click_improvement := min 60 (max 8 (click_gap * multiplier * size_adj * j.click_j))
  let conversion_improvement := min 80 (max 10 (conversion_gap * multiplier * size_adj * j.conv_j))
  let confidence := calculate_confidence emails_sent open_rate click_rate conversion_rate
  { open_rate_improvement := roundTo 1 open_improvement
    click_rate_improvement := roundTo 1 click_improvement
    conversion_rate_improvement := roundTo 1 conversion_improvement
    confidence_score := roundTo 2 confidence
    prediction_method := "rule_based_with_statistics" }

/-- Reading a numeric dict field with default 0 (`d.get(field, 0)`): an
absent field reads as 0, a numeric field as its value, and a non-numeric
field raises `TypeError` when the arithmetic or comparison touches it. -/
def getNumField : Option PyVal → Except Unit ℚ
  | none => .ok 0
  | some (.num q) => .ok q
  | some (.str _) => .error ()

/-- The `try` block of `predict_improvements` over the raw dict: any
`TypeError` raised while using a non-numeric field aborts the block. -/
def predictChecked (c : CampaignData) (j : Jitter) : Except Unit Predictions :=
  match getNumField c.open_rate, getNumField c.click_rate,
        getNumField c.conversion_rate, getNumField c.emails_sent with
  | .ok o, .ok cl, .ok cv, .ok es =>
      .ok (predictCore o cl cv es (c.target_industry.getD "Unknown")
            (c.target_company_size.getD "Unknown") j)
  | _, _, _, _ => .error ()

/-- The default predictions returned by the `except` handler (lines 219-225). -/
def fallback_predictions : Predictions :=
  { open_rate_improvement := 15
    click_rate_improvement := 25
    conversion_rate_improvement := 30
    confidence_score := 1/2
    prediction_method := "default_fallback" }

/-- `predict_improvements` (lines 168-225), input-output behaviour of the
`try`/`except` given the jitter draws: the rule-based record when the body
succeeds, the fixed fallback record when it raises. -/
def predict_improvements (c : CampaignData) (j : Jitter) : Predictions :=
  match predictChecked c j with
  | .ok p => p
  | .error _ => fallback_predictions

/-- The value actually used for a numeric field once `getNumField`
succeeds: the field's number, or 0 when the field is absent. -/
def numOrZero : Option PyVal → ℚ
  | some (.num q) => q
  | _ => 0

/-- A campaign dict is numerically well-formed when none of its four numeric
fields holds a non-numeric value (absent fields are allowed). -/
def numericOk : Option PyVal → Bool
  | some (.str _) => false
  | _ => true

def wellFormedNumerics (c : CampaignData) : Bool :=
  numericOk c.emails_sent && numericOk c.open_rate
    && numericOk c.click_rate && numericOk c.conversion_rate

/-! ### The stateful model object: `train_model` and the predict entry point -/

/-- The feature record built by `prepare_features` (lines 29-56). -/
structure Features where
  emails_sent : PyVal
  open_rate : PyVal
  click_rate : PyVal
  conversion_rate : PyVal
  bounce_rate : PyVal
  unsubscribe_rate : PyVal
  target_market : String
  target_industry : String
  target_company_size : String
  age_range : String
deriving DecidableEq, Repr

/-- `prepare_features` on one campaign dict (lines 35-54). -/
def prepare_features_one (c : CampaignData) : Features :=
  { emails_sent := c.emails_sent.getD (.num 0)
    open_rate := c.open_rate.getD (.num 0)
    click_rate := c.click_rate.getD (.num 0)
    conversion_rate := c.conversion_rate.getD (.num 0)
    bounce_rate := c.bounce_rate.getD (.num 0)
    unsubscribe_rate := c.unsubscribe_rate.getD (.num 0)
    target_market := c.target_market.getD "Unknown"
    target_industry := c.target_industry.getD "Unknown"
    target_company_size := c.target_company_size.getD "Unknown"
    age_range := c.age_range.getD "Unknown" }

/-- `prepare_features` (lines 29-56). -/
def prepare_features (l : List CampaignData) : List Features :=
  l.map prepare_features_one

/-- One synthetic improvement record built in the loop of
`create_synthetic_improvement_data` (lines 66-92). -/
structure ImprovementRecord where
  open_rate_improvement : ℚ
  click_rate_improvement : ℚ
  conversion_rate_improvement : ℚ
deriving DecidableEq, Repr

/-- Arithmetic on a raw Python value: a non-number raises `TypeError`. -/
def toNumPy : PyVal → Except Unit ℚ
  | .num q => .ok q
  | .str _ => .error ()

/-- Loop body of `create_synthetic_improvement_data` (lines 66-92) for one
feature record and its jitter draws. -/
def synthOne (f : Features) (j : Jitter) : Except Unit ImprovementRecord := do
  let o ← toNumPy f.open_rate
  let cl ← toNumPy f.click_rate
  let cv ← toNumPy f.conversion_rate
  let open_potential := max 0 ((benchmarks.lookup "open_rate").getD 0 - o)
  let click_potential := max 0 ((benchmarks.lookup "click_rate").getD 0 - cl)
  let conversion_potential := max 0 ((benchmarks.lookup "conversion_rate").getD 0 - cv)
  let market_multiplier := (industry_multipliers_training.lookup f.target_industry).getD 1
  .ok
    { open_rate_improvement :=
        roundTo 2 (min 50 (max 5 (open_potential * market_multiplier * j.open_j)))
      click_rate_improvement :=
        roundTo 2 (min 75 (max 8 (click_potential * market_multiplier * j.click_j)))
      conversion_rate_improvement :=
        roundTo 2 (min 100 (max 10 (conversion_potential * market_multiplier * j.conv_j))) }

/-- `create_synthetic_improvement_data` (lines 58-94), with `js i` the jitter
draws consumed for the `i`-th campaign; a `TypeError` inside the loop aborts
the whole call. -/
def create_synthetic_improvement_data (data : List CampaignData) (js : ℕ → Jitter) :
    Except Unit (List Features × List ImprovementRecord) := do
  let features := prepare_features data
  let improvements ← features.enum.mapM (fun p => synthOne p.2 (js p.1))
  .ok (features, improvements)

/-- `statistics.mean`. -/
def listMean (l : List ℚ) : ℚ := l.sum / l.length

def insertSorted (x : ℚ) : List ℚ → List ℚ
  | [] => [x]
  | y :: ys => if x ≤ y then x :: y :: ys else y :: insertSorted x ys

def sortQ (l : List ℚ) : List ℚ := l.foldr insertSorted []

/-- `statistics.median`: middle element of the sorted list, or the average
of the two middle elements for even length. -/
def listMedian (l : List ℚ) : ℚ :=
  let s := sortQ l
  if l.length % 2 = 1 then s.getD (l.length / 2) 0
  else (s.getD (l.length / 2 - 1) 0 + s.getD (l.length / 2) 0) / 2

def listMax (l : List ℚ) : ℚ := l.foldl max (l.headD 0)

def listMin (l : List ℚ) : ℚ := l.foldl min (l.headD 0)

/-- The per-metric statistics stored in `self.model_stats` (lines 118-137). -/
structure MetricStats where
  mean : ℚ
  median : ℚ
  max : ℚ
  min : ℚ
deriving DecidableEq, Repr

def MetricStats.ofList (l : List ℚ) : MetricStats :=
  { mean := listMean l, median := listMedian l, max := listMax l, min := listMin l }

structure ModelStats where
  open_rate : MetricStats
  click_rate : MetricStats
  conversion_rate : MetricStats
deriving DecidableEq, Repr

/-- The mutable fields of the `EmailCampaignMLModel` object touched by
training and prediction.  `model_stats = none` models the attribute not yet
being set (it is absent after `__init__`). -/
structure ModelState where
  is_trained : Bool
  historical_data : List Features
  model_stats : Option ModelStats
deriving DecidableEq, Repr

/-- The state established by `__init__` (lines 18-27). -/
def initial_state : ModelState :=
  { is_trained := false, historical_data := [], model_stats := none }

/-- `train_model` (lines 96-158) as a state transition, with `js` the jitter
draws consumed by `create_synthetic_improvement_data`.  Fewer than 3
campaigns: only `is_trained` is set.  Otherwise the synthetic data is built;
on success `historical_data` and `model_stats` are stored; a `TypeError`
raised while building it lands in the `except` handler, which also only sets
`is_trained` (the assignments at lines 110 and 118 are not yet reached). -/
def train_model (s : ModelState) (data : List CampaignData) (js : ℕ → Jitter) : ModelState :=
  if data.length < 3 then { s with is_trained := true }
  else
    match create_synthetic_improvement_data data js with
    | .ok (features, improvements) =>
        { is_trained := true
          historical_data := features
          model_stats := some
            { open_rate := .ofList (improvements.map ImprovementRecord.open_rate_improvement)
              click_rate := .ofList (improvements.map ImprovementRecord.click_rate_improvement)
              conversion_rate :=
                .ofList (improvements.map ImprovementRecord.conversion_rate_improvement) } }
    | .error _ => { s with is_trained := true }

/-- The full `predict_improvements` method (lines 160-225) as a state
transition paired with its returned record: an untrained model first runs
`train_model([campaign_data])` (lines 164-166), then the `try`/`except`
body computes the predictions. -/
def predict_improvements_step (s : ModelState) (c : CampaignData) (j : Jitter)
    (js : ℕ → Jitter) : ModelState × Predictions :=
  let s1 := if s.is_trained then s else train_model s [c] js
  (s1, predict_improvements c j)

/-! ### The deterministic fallback path of `src/api/ml_model.py` -/

/-- The record returned by `get_fallback_prediction` in `ml_model.py`
(lines 258-284), which carries predicted absolute rates. -/
structure FallbackPrediction where
  open_rate_improvement_percent : ℚ
  click_rate_improvement_percent : ℚ
  conversion_rate_improvement_percent : ℚ
  predicted_open_rate : ℚ
  predicted_click_rate : ℚ
  predicted_conversion_rate : ℚ
  confidence : String
deriving DecidableEq, Repr

/-- `get_fallback_prediction` of `ml_model.py` (lines 258-284). -/
def get_fallback_prediction (open_rate click_rate conversion_rate : ℚ) : FallbackPrediction :=
  let open_improvement := max 10 (min 40 ((25 - open_rate) / 25 * 30 + 15))
  let click_improvement := max 15 (min 60 ((4 - click_rate) / 4 * 40 + 20))
  let conversion_improvement := max 20 (min 80 ((5/2 - conversion_rate) / (5/2) * 50 + 25))
  let predicted_open := open_rate * (1 + open_improvement / 100)
  let predicted_click := click_rate * (1 + click_improvement / 100)
  let predicted_conversion := conversion_rate * (1 + conversion_improvement / 100)
  { open_rate_improvement_percent := roundTo 1 open_improvement
    click_rate_improvement_percent := roundTo 1 click_improvement
    conversion_rate_improvement_percent := roundTo 1 conversion_improvement
    predicted_open_rate := roundTo 2 predicted_open
    predicted_click_rate := roundTo 2 predicted_click
    predicted_conversion_rate := roundTo 2 predicted_conversion
    confidence := "Low" }

/-- An all-absent campaign dict, for concrete evaluations. -/
def emptyCampaign : CampaignData :=
  { emails_sent := none, open_rate := none, click_rate := none
    conversion_rate := none, bounce_rate := none, unsubscribe_rate := none
    target_market := none, target_industry := none
    target_company_size := none, age_range := none }

/-! ### Helper lemmas -/

theorem round_mono {x y : ℚ} (h : x ≤ y) : round x ≤ round y := by
  rw [round_eq, round_eq]
  exact Int.floor_mono (by linarith)

theorem roundTo_mono (n : ℕ) {x y : ℚ} (h : x ≤ y) : roundTo n x ≤ roundTo n y := by
  unfold roundTo
  have h10 : (0:ℚ) < 10 ^ n := by positivity
  have hr : round (x * 10 ^ n) ≤ round (y * 10 ^ n) :=
    round_mono (mul_le_mul_of_nonneg_right h (le_of_lt h10))
  gcongr

theorem round_eq_int (x : ℚ) (k : ℤ) (h1 : (k : ℚ) ≤ x + 1/2) (h2 : x + 1/2 < k + 1) :
    round x = k := by
  rw [round_eq]
  exact Int.floor_eq_iff.mpr ⟨by exact_mod_cast h1, by exact_mod_cast h2⟩

/-- `roundTo` computed against explicit integer bracketing of `x * 10^n + 1/2`. -/
theorem roundTo_eq (n : ℕ) (x : ℚ) (k : ℤ) (h1 : (k : ℚ) ≤ x * 10 ^ n + 1/2)
    (h2 : x * 10 ^ n + 1/2 < k + 1) : roundTo n x = (k : ℚ) / 10 ^ n := by
  unfold roundTo
  rw [round_eq_int _ k h1 h2]

/-- A rational that is an integer multiple of `10^-n` is a fixed point of
`roundTo n`. -/
theorem roundTo_fixed (n : ℕ) (x : ℚ) (k : ℤ) (h : x * 10 ^ n = (k : ℚ)) :
    roundTo n x = x := by
  have h10 : (10:ℚ) ^ n ≠ 0 := by positivity
  unfold roundTo
  rw [h, round_intCast, ← h, mul_div_assoc, div_self h10, mul_one]

theorem roundTo_clamp_bounds (n : ℕ) {lo hi x : ℚ} (hlo : roundTo n lo = lo)
    (hhi : roundTo n hi = hi) (h1 : lo ≤ x) (h2 : x ≤ hi) :
    lo ≤ roundTo n x ∧ roundTo n x ≤ hi := by
  constructor
  · calc lo = roundTo n lo := hlo.symm
      _ ≤ roundTo n x := roundTo_mono n h1
  · calc roundTo n x ≤ roundTo n hi := roundTo_mono n h2
      _ = hi := hhi

theorem lookup_none_of_not_mem_keys {β : Type} (l : List (String × β)) (a : String)
    (h : a ∉ l.map Prod.fst) : l.lookup a = none := by
  induction l with
  | nil => rfl
  | cons p t ih =>
    simp only [List.map_cons, List.mem_cons] at h
    push_neg at h
    have hb : (a == p.1) = false := beq_eq_false_iff_ne.mpr h.1
    simp [List.lookup, hb, ih h.2]

/-- Bounds of the three clamped, rounded improvements of `predictCore`;
they hold for every jitter value. -/
theorem predictCore_bounds (o cl cv es : ℚ) (ind size : String) (j : Jitter) :
    (5 ≤ (predictCore o cl cv es ind size j).open_rate_improvement
      ∧ (predictCore o cl cv es ind size j).open_rate_improvement ≤ 45)
    ∧ (8 ≤ (predictCore o cl cv es ind size j).click_rate_improvement
      ∧ (predictCore o cl cv es ind size j).click_rate_improvement ≤ 60)
    ∧ (10 ≤ (predictCore o cl cv es ind size j).conversion_rate_improvement
      ∧ (predictCore o cl cv es ind size j).conversion_rate_improvement ≤ 80) := by
  refine ⟨?_, ?_, ?_⟩
  · exact roundTo_clamp_bounds 1 (roundTo_fixed 1 5 50 (by norm_num))
      (roundTo_fixed 1 45 450 (by norm_num))
      (le_min (by norm_num) (le_max_left _ _)) (min_le_left _ _)
  · exact roundTo_clamp_bounds 1 (roundTo_fixed 1 8 80 (by norm_num))
      (roundTo_fixed 1 60 600 (by norm_num))
      (le_min (by norm_num) (le_max_left _ _)) (min_le_left _ _)
  · exact roundTo_clamp_bounds 1 (roundTo_fixed 1 10 100 (by norm_num))
      (roundTo_fixed 1 80 800 (by norm_num))
      (le_min (by norm_num) (le_max_left _ _)) (min_le_left _ _)

/-- `predict_improvements` either returns the fallback record or the
rule-based record computed on the extracted numeric values. -/
theorem predict_improvements_cases (c : CampaignData) (j : Jitter) :
    predict_improvements c j = fallback_predictions
      ∨ ∃ o cl cv es, predict_improvements c j
          = predictCore o cl cv es (c.target_industry.getD "Unknown")
              (c.target_company_size.getD "Unknown") j := by
  unfold predict_improvements predictChecked
  cases getNumField c.open_rate with
  | error e => simp
  | ok o =>
    cases getNumField c.click_rate with
    | error e => simp
    | ok cl =>
      cases getNumField c.conversion_rate with
      | error e => simp
      | ok cv =>
        cases getNumField c.emails_sent with
        | error e => simp
        | ok es => exact Or.inr ⟨o, cl, cv, es, rfl⟩

/-! ### Claims -/

/-- C1: for every input record, the engine computes, for each metric,
`gap = max(0, benchmark - current)` with benchmarks 22.0, 3.5, 2.0, and the
pre-clamp improvement is `gap * industry_multiplier * size_adjustment *
jitter`, where the jitter draws lie in the declared per-metric uniform
ranges (open [0.8,1.2], click [0.7,1.3], conversion [0.6,1.4]); a metric at
or above its benchmark yields `gap = 0`. -/
theorem predict_improvement_formula (o cl cv es : ℚ) (ind size : String) (j : Jitter)
    (hjo : 4/5 ≤ j.open_j ∧ j.open_j ≤ 6/5)
    (hjc : 7/10 ≤ j.click_j ∧ j.click_j ≤ 13/10)
    (hjv : 3/5 ≤ j.conv_j ∧ j.conv_j ≤ 7/5) :
    benchmarks.lookup "open_rate" = some 22
    ∧ benchmarks.lookup "click_rate" = some (7/2)
    ∧ benchmarks.lookup "conversion_rate" = some 2
    ∧ (predictCore o cl cv es ind size j).open_rate_improvement
        = roundTo 1 (min 45 (max 5 (max 0 (22 - o)
            * (industry_multipliers.lookup ind).getD 1
            * (size_adjustments.lookup size).getD 1 * j.open_j)))
    ∧ (predictCore o cl cv es ind size j).click_rate_improvement
        = roundTo 1 (min 60 (max 8 (max 0 (7/2 - cl)
            * (industry_multipliers.lookup ind).getD 1
            * (size_adjustments.lookup size).getD 1 * j.click_j)))
    ∧ (predictCore o cl cv es ind size j).conversion_rate_improvement
        = roundTo 1 (min 80 (max 10 (max 0 (2 - cv)
            * (industry_multipliers.lookup ind).getD 1
            * (size_adjustments.lookup size).getD 1 * j.conv_j)))
    ∧ (22 ≤ o → max 0 (22 - o) = 0)
    ∧ (7/2 ≤ cl → max 0 (7/2 - cl) = 0)
    ∧ (2 ≤ cv → max 0 (2 - cv) = 0) := by
  refine ⟨rfl, rfl, rfl, rfl, rfl, rfl, ?_, ?_, ?_⟩
  · intro h
    exact max_eq_left (by linarith)
  · intro h
    exact max_eq_left (by linarith)
  · intro h
    exact max_eq_left (by linarith)

theorem predict_improvement_formula_witness :
    (((4:ℚ)/5 ≤ 1 ∧ (1:ℚ) ≤ 6/5) ∧ ((7:ℚ)/10 ≤ 1 ∧ (1:ℚ) ≤ 13/10)
      ∧ ((3:ℚ)/5 ≤ 1 ∧ (1:ℚ) ≤ 7/5))
    ∧ (predictCore 25 4 3 1 "Retail" "Unknown" ⟨1, 1, 1⟩).open_rate_improvement
        = roundTo 1 (min 45 (max 5 (max 0 (22 - 25)
            * (industry_multipliers.lookup "Retail").getD 1
            * (size_adjustments.lookup "Unknown").getD 1 * (1:ℚ))))
    ∧ max (0:ℚ) (22 - 25) = 0 := by
  have h := predict_improvement_formula 25 4 3 1 "Retail" "Unknown" ⟨1, 1, 1⟩
    (by norm_num) (by norm_num) (by norm_num)
  exact ⟨⟨by norm_num, by norm_num, by norm_num⟩, h.2.2.2.1,
    h.2.2.2.2.2.2.1 (by norm_num)⟩

/-- C2: for every input record and every jitter choice within the declared
ranges, each returned improvement percentage lies within its metric's clamp
interval: open in [5,45], click in [8,60], conversion in [10,80]. -/
theorem predict_improvement_bounds (c : CampaignData) (j : Jitter)
    (hjo : 4/5 ≤ j.open_j ∧ j.open_j ≤ 6/5)
    (hjc : 7/10 ≤ j.click_j ∧ j.click_j ≤ 13/10)
    (hjv : 3/5 ≤ j.conv_j ∧ j.conv_j ≤ 7/5) :
    (5 ≤ (predict_improvements c j).open_rate_improvement
      ∧ (predict_improvements c j).open_rate_improvement ≤ 45)
    ∧ (8 ≤ (predict_improvements c j).click_rate_improvement
      ∧ (predict_improvements c j).click_rate_improvement ≤ 60)
    ∧ (10 ≤ (predict_improvements c j).conversion_rate_improvement
      ∧ (predict_improvements c j).conversion_rate_improvement ≤ 80) := by
  rcases predict_improvements_cases c j with h | ⟨o, cl, cv, es, h⟩
  · rw [h]
    refine ⟨⟨?_, ?_⟩, ⟨?_, ?_⟩, ⟨?_, ?_⟩⟩ <;> norm_num [fallback_predictions]
  · rw [h]
    exact predictCore_bounds o cl cv es _ _ j

theorem predict_improvement_bounds_witness :
    (((4:ℚ)/5 ≤ 1 ∧ (1:ℚ) ≤ 6/5) ∧ ((7:ℚ)/10 ≤ 1 ∧ (1:ℚ) ≤ 13/10)
      ∧ ((3:ℚ)/5 ≤ 1 ∧ (1:ℚ) ≤ 7/5))
    ∧ ((5 ≤ (predict_improvements emptyCampaign ⟨1, 1, 1⟩).open_rate_improvement
      ∧ (predict_improvements emptyCampaign ⟨1, 1, 1⟩).open_rate_improvement ≤ 45)
    ∧ (8 ≤ (predict_improvements emptyCampaign ⟨1, 1, 1⟩).click_rate_improvement
      ∧ (predict_improvements emptyCampaign ⟨1, 1, 1⟩).click_rate_improvement ≤ 60)
    ∧ (10 ≤ (predict_improvements emptyCampaign ⟨1, 1, 1⟩).conversion_rate_improvement
      ∧ (predict_improvements emptyCampaign ⟨1, 1, 1⟩).conversion_rate_improvement ≤ 80)) :=
  ⟨⟨⟨by norm_num, by norm_num⟩, ⟨by norm_num, by norm_num⟩, ⟨by norm_num, by norm_num⟩⟩,
    predict_improvement_bounds emptyCampaign ⟨1, 1, 1⟩
      (by norm_num) (by norm_num) (by norm_num)⟩

/-- C3: for every input record, the confidence score equals the clamp to
[0.3, 0.95] of 0.7 times the fraction of the four numeric fields that are
present and positive, plus 0.1 when emails_sent > 10000, minus 0.1 when
emails_sent < 1000; and the returned confidence_score always lies in
[0.3, 0.95]. -/
theorem confidence_score_spec (es o cl cv : ℚ) (ind size : String) (j : Jitter) :
    calculate_confidence es o cl cv
      = max (3/10) (min (19/20)
          (7/10 * (((if 0 < es then (1:ℚ) else 0) + (if 0 < o then 1 else 0)
              + (if 0 < cl then 1 else 0) + (if 0 < cv then 1 else 0)) / 4)
            + (if 10000 < es then (1:ℚ)/10 else 0)
            - (if es < 1000 then (1:ℚ)/10 else 0)))
    ∧ (3/10 ≤ calculate_confidence es o cl cv ∧ calculate_confidence es o cl cv ≤ 19/20)
    ∧ (3/10 ≤ (predictCore o cl cv es ind size j).confidence_score
      ∧ (predictCore o cl cv es ind size j).confidence_score ≤ 19/20) := by
  have step : ∀ A : ℚ,
      (if 10000 < es then A + 1/10 else if es < 1000 then A - 1/10 else A)
        = A + (if 10000 < es then (1:ℚ)/10 else 0) - (if es < 1000 then (1:ℚ)/10 else 0) := by
    intro A
    rcases lt_or_le 10000 es with h1 | h1
    · rw [if_pos h1, if_pos h1, if_neg (by intro h; linarith)]
      ring
    · rw [if_neg (not_lt.mpr h1), if_neg (not_lt.mpr h1)]
      rcases lt_or_le es 1000 with h2 | h2
      · rw [if_pos h2, if_pos h2]
        ring
      · rw [if_neg (not_lt.mpr h2), if_neg (not_lt.mpr h2)]
        ring
  have key : calculate_confidence es o cl cv
      = max (3/10) (min (19/20)
          (7/10 * (((if 0 < es then (1:ℚ) else 0) + (if 0 < o then 1 else 0)
              + (if 0 < cl then 1 else 0) + (if 0 < cv then 1 else 0)) / 4)
            + (if 10000 < es then (1:ℚ)/10 else 0)
            - (if es < 1000 then (1:ℚ)/10 else 0))) := by
    simp only [calculate_confidence]
    rw [step]
  have hb1 : 3/10 ≤ calculate_confidence es o cl cv := by
    rw [key]
    exact le_max_left _ _
  have hb2 : calculate_confidence es o cl cv ≤ 19/20 := by
    rw [key]
    exact max_le (by norm_num) (min_le_left _ _)
  have hscore : (predictCore o cl cv es ind size j).confidence_score
      = roundTo 2 (calculate_confidence es o cl cv) := rfl
  have hb := roundTo_clamp_bounds 2 (roundTo_fixed 2 (3/10) 30 (by norm_num))
    (roundTo_fixed 2 (19/20) 95 (by norm_num)) hb1 hb2
  exact ⟨key, ⟨hb1, hb2⟩, by rw [hscore]; exact hb⟩

/-- A clamped product with a zero gap collapses to the floor value. -/
theorem clamped_round_of_gap_zero {g m s jj lo hi : ℚ} (hg : g = 0) (hlo : 0 ≤ lo)
    (hlh : lo ≤ hi) (hfix : roundTo 1 lo = lo) :
    roundTo 1 (min hi (max lo (g * m * s * jj))) = lo := by
  rw [hg, zero_mul, zero_mul, zero_mul, max_eq_left hlo, min_eq_right hlh, hfix]

/-- C4 counterexample: the simple engine's returned record carries no
predicted absolute rates — none of the three `predicted_*_rate` keys is
present in the output dict for a concrete input. -/
theorem predicted_rates_counterexample :
    (predict_improvements emptyCampaign ⟨1, 1, 1⟩).toDict.lookup "predicted_open_rate" = none
    ∧ (predict_improvements emptyCampaign ⟨1, 1, 1⟩).toDict.lookup "predicted_click_rate" = none
    ∧ (predict_improvements emptyCampaign ⟨1, 1, 1⟩).toDict.lookup "predicted_conversion_rate"
        = none := by
  refine ⟨rfl, rfl, rfl⟩

/-- C4 amended: the simple engine's output record contains exactly the three
improvement percentages, the confidence score and the prediction method — no
predicted absolute rates; the predicted absolute rates, computed as
`current_rate * (1 + improvement/100)`, are produced by the `ml_model.py`
variant (here its deterministic fallback path). -/
theorem predicted_rates_amended (c : CampaignData) (j : Jitter) (o cl cv : ℚ) :
    (predict_improvements c j).toDict.map Prod.fst
      = ["open_rate_improvement", "click_rate_improvement",
         "conversion_rate_improvement", "confidence_score", "prediction_method"]
    ∧ (∃ imp, (get_fallback_prediction o cl cv).open_rate_improvement_percent = roundTo 1 imp
        ∧ (get_fallback_prediction o cl cv).predicted_open_rate = roundTo 2 (o * (1 + imp / 100)))
    ∧ (∃ imp, (get_fallback_prediction o cl cv).click_rate_improvement_percent = roundTo 1 imp
        ∧ (get_fallback_prediction o cl cv).predicted_click_rate = roundTo 2 (cl * (1 + imp / 100)))
    ∧ (∃ imp, (get_fallback_prediction o cl cv).conversion_rate_improvement_percent = roundTo 1 imp
        ∧ (get_fallback_prediction o cl cv).predicted_conversion_rate
            = roundTo 2 (cv * (1 + imp / 100))) := by
  refine ⟨rfl, ⟨max 10 (min 40 ((25 - o) / 25 * 30 + 15)), rfl, rfl⟩,
    ⟨max 15 (min 60 ((4 - cl) / 4 * 40 + 20)), rfl, rfl⟩,
    ⟨max 20 (min 80 ((5/2 - cv) / (5/2) * 50 + 25)), rfl, rfl⟩⟩

/-- C5 counterexample: at the spec's own example (all three metrics above
benchmark, unknown industry and size) with jitter draw 0.8 for the open
metric, the open improvement is exactly the floor 5, not floor times jitter
(which would be 4): gap 0 makes the jitter factor inert. -/
theorem gap_zero_counterexample :
    (predictCore (57/2) (41/5) (31/10) 5000 "E-commerce" "Unknown"
        ⟨4/5, 1, 1⟩).open_rate_improvement = 5
    ∧ (predictCore (57/2) (41/5) (31/10) 5000 "E-commerce" "Unknown"
        ⟨4/5, 1, 1⟩).open_rate_improvement ≠ 5 * (4/5) := by
  have h : (predictCore (57/2) (41/5) (31/10) 5000 "E-commerce" "Unknown"
      ⟨4/5, 1, 1⟩).open_rate_improvement
      = roundTo 1 (min 45 (max 5 (max 0 (22 - 57/2) * 1 * 1 * (4/5)))) := rfl
  have main : (predictCore (57/2) (41/5) (31/10) 5000 "E-commerce" "Unknown"
      ⟨4/5, 1, 1⟩).open_rate_improvement = 5 := by
    rw [h]
    exact clamped_round_of_gap_zero (max_eq_left (by norm_num)) (by norm_num)
      (by norm_num) (roundTo_fixed 1 5 50 (by norm_num))
  exact ⟨main, by rw [main]; norm_num⟩

/-- C5 amended: for every record whose three metrics are at or above their
benchmarks, each gap is 0, and each improvement percentage equals exactly the
metric's floor (5, 8, 10) — the jitter draw multiplies the zero gap and so
has no effect — hence every improvement is at the metric's minimum clamp
bound and never 0. -/
theorem gap_zero_floor (o cl cv es : ℚ) (ind size : String) (j : Jitter)
    (ho : 22 ≤ o) (hcl : 7/2 ≤ cl) (hcv : 2 ≤ cv) :
    max 0 (22 - o) = 0 ∧ max 0 (7/2 - cl) = 0 ∧ max 0 (2 - cv) = 0
    ∧ (predictCore o cl cv es ind size j).open_rate_improvement = 5
    ∧ (predictCore o cl cv es ind size j).click_rate_improvement = 8
    ∧ (predictCore o cl cv es ind size j).conversion_rate_improvement = 10 := by
  have g1 : max (0:ℚ) (22 - o) = 0 := max_eq_left (by linarith)
  have g2 : max (0:ℚ) (7/2 - cl) = 0 := max_eq_left (by linarith)
  have g3 : max (0:ℚ) (2 - cv) = 0 := max_eq_left (by linarith)
  have e1 : (predictCore o cl cv es ind size j).open_rate_improvement
      = roundTo 1 (min 45 (max 5 (max 0 (22 - o)
          * (industry_multipliers.lookup ind).getD 1
          * (size_adjustments.lookup size).getD 1 * j.open_j))) := rfl
  have e2 : (predictCore o cl cv es ind size j).click_rate_improvement
      = roundTo 1 (min 60 (max 8 (max 0 (7/2 - cl)
          * (industry_multipliers.lookup ind).getD 1
          * (size_adjustments.lookup size).getD 1 * j.click_j))) := rfl
  have e3 : (predictCore o cl cv es ind size j).conversion_rate_improvement
      = roundTo 1 (min 80 (max 10 (max 0 (2 - cv)
          * (industry_multipliers.lookup ind).getD 1
          * (size_adjustments.lookup size).getD 1 * j.conv_j))) := rfl
  refine ⟨g1, g2, g3, ?_, ?_, ?_⟩
  · rw [e1]
    exact clamped_round_of_gap_zero g1 (by norm_num) (by norm_num)
      (roundTo_fixed 1 5 50 (by norm_num))
  · rw [e2]
    exact clamped_round_of_gap_zero g2 (by norm_num) (by norm_num)
      (roundTo_fixed 1 8 80 (by norm_num))
  · rw [e3]
    exact clamped_round_of_gap_zero g3 (by norm_num) (by norm_num)
      (roundTo_fixed 1 10 100 (by norm_num))

theorem gap_zero_floor_witness :
    ((22:ℚ) ≤ 25 ∧ (7:ℚ)/2 ≤ 4 ∧ (2:ℚ) ≤ 3)
    ∧ (predictCore 25 4 3 1 "Technology" "Small (1-50)" ⟨1, 1, 1⟩).open_rate_improvement = 5
    ∧ (predictCore 25 4 3 1 "Technology" "Small (1-50)" ⟨1, 1, 1⟩).click_rate_improvement = 8
    ∧ (predictCore 25 4 3 1 "Technology" "Small (1-50)" ⟨1, 1, 1⟩).conversion_rate_improvement
        = 10 := by
  have h := gap_zero_floor 25 4 3 1 "Technology" "Small (1-50)" ⟨1, 1, 1⟩
    (by norm_num) (by norm_num) (by norm_num)
  exact ⟨⟨by norm_num, by norm_num, by norm_num⟩, h.2.2.2.1, h.2.2.2.2.1, h.2.2.2.2.2⟩

theorem train_model_is_trained (s : ModelState) (data : List CampaignData) (js : ℕ → Jitter) :
    (train_model s data js).is_trained = true := by
  unfold train_model
  split
  · rfl
  · split <;> rfl

/-- C6 counterexample: calling `predict_improvements` on the freshly
initialised (untrained) model object changes its state — `is_trained` flips
from false to true because the method first trains on the input campaign. -/
theorem predict_state_counterexample :
    (predict_improvements_step initial_state emptyCampaign ⟨1, 1, 1⟩
        (fun _ => ⟨1, 1, 1⟩)).1.is_trained ≠ initial_state.is_trained := by
  decide

/-- C6 amended: `predict_improvements` never changes `historical_data` or
`model_stats` and its returned record is a pure function of the input and
jitter draws; on an already-trained model the whole state is unchanged, but
on an untrained model the call first trains on the single input campaign
(below the 3-campaign threshold), which sets `is_trained` to true. -/
theorem predict_state_frame (s : ModelState) (c : CampaignData) (j : Jitter)
    (js : ℕ → Jitter) :
    (predict_improvements_step s c j js).1.historical_data = s.historical_data
    ∧ (predict_improvements_step s c j js).1.model_stats = s.model_stats
    ∧ (predict_improvements_step s c j js).1.is_trained = true
    ∧ (s.is_trained = true → (predict_improvements_step s c j js).1 = s)
    ∧ (predict_improvements_step s c j js).2 = predict_improvements c j := by
  unfold predict_improvements_step train_model
  cases hs : s.is_trained with
  | true => simp [hs]
  | false => simp [hs]

theorem predict_state_frame_witness :
    (ModelState.mk true [] none).is_trained = true
    ∧ (predict_improvements_step (ModelState.mk true [] none) emptyCampaign ⟨1, 1, 1⟩
        (fun _ => ⟨1, 1, 1⟩)).1 = ModelState.mk true [] none :=
  ⟨rfl, (predict_state_frame (ModelState.mk true [] none) emptyCampaign ⟨1, 1, 1⟩
    (fun _ => ⟨1, 1, 1⟩)).2.2.2.1 rfl⟩

theorem getNumField_ok (v : Option PyVal) (h : numericOk v = true) :
    getNumField v = .ok (numOrZero v) := by
  match v with
  | none => rfl
  | some (.num q) => rfl
  | some (.str w) => exact absurd h (by simp [numericOk])

/-- C7: `predict_improvements` never raises for well-formed input: it equals
the rule-based computation on the extracted values, where a missing
categorical field is read as "Unknown" and a missing numeric field as 0 —
which drives the corresponding gap to its maximum, the benchmark value. -/
theorem missing_fields_defaults (c : CampaignData) (j : Jitter)
    (h : wellFormedNumerics c = true) :
    predict_improvements c j
      = predictCore (numOrZero c.open_rate) (numOrZero c.click_rate)
          (numOrZero c.conversion_rate) (numOrZero c.emails_sent)
          (c.target_industry.getD "Unknown") (c.target_company_size.getD "Unknown") j
    ∧ (c.open_rate = none → max 0 (22 - numOrZero c.open_rate) = 22)
    ∧ (c.click_rate = none → max 0 (7/2 - numOrZero c.click_rate) = 7/2)
    ∧ (c.conversion_rate = none → max 0 (2 - numOrZero c.conversion_rate) = 2) := by
  have hw : numericOk c.emails_sent = true ∧ numericOk c.open_rate = true
      ∧ numericOk c.click_rate = true ∧ numericOk c.conversion_rate = true := by
    unfold wellFormedNumerics at h
    simp only [Bool.and_eq_true] at h
    exact ⟨h.1.1.1, h.1.1.2, h.1.2, h.2⟩
  refine ⟨?_, ?_, ?_, ?_⟩
  · unfold predict_improvements predictChecked
    rw [getNumField_ok _ hw.1, getNumField_ok _ hw.2.1,
      getNumField_ok _ hw.2.2.1, getNumField_ok _ hw.2.2.2]
  · intro hn
    rw [hn, show numOrZero none = 0 from rfl, show (22:ℚ) - 0 = 22 by norm_num]
    exact max_eq_right (by norm_num)
  · intro hn
    rw [hn, show numOrZero none = 0 from rfl, show (7:ℚ)/2 - 0 = 7/2 by norm_num]
    exact max_eq_right (by norm_num)
  · intro hn
    rw [hn, show numOrZero none = 0 from rfl, show (2:ℚ) - 0 = 2 by norm_num]
    exact max_eq_right (by norm_num)

theorem missing_fields_defaults_witness :
    wellFormedNumerics emptyCampaign = true
    ∧ predict_improvements emptyCampaign ⟨1, 1, 1⟩
        = predictCore 0 0 0 0 "Unknown" "Unknown" ⟨1, 1, 1⟩
    ∧ max (0:ℚ) (22 - 0) = 22 :=
  ⟨rfl,
    (missing_fields_defaults emptyCampaign ⟨1, 1, 1⟩ rfl).1,
    (missing_fields_defaults emptyCampaign ⟨1, 1, 1⟩ rfl).2.1 rfl⟩

/-- C8: an industry or company-size string outside the fixed lookup tables
("Unknown", an absent value read as "Unknown", or any other unknown string)
falls back to multiplier 1.0 and size adjustment 1.0, and the prediction is
the same as with "Unknown" in both fields; nothing is raised. -/
theorem unknown_category_defaults (ind size : String)
    (h1 : ind ∉ industry_multipliers.map Prod.fst)
    (h2 : size ∉ size_adjustments.map Prod.fst) :
    (industry_multipliers.lookup ind).getD 1 = 1
    ∧ (size_adjustments.lookup size).getD 1 = 1
    ∧ ((Option.none : Option String).getD "Unknown" = "Unknown"
        ∧ "Unknown" ∉ industry_multipliers.map Prod.fst
        ∧ "Unknown" ∉ size_adjustments.map Prod.fst)
    ∧ ∀ o cl cv es j, predictCore o cl cv es ind size j
        = predictCore o cl cv es "Unknown" "Unknown" j := by
  have e1 : industry_multipliers.lookup ind = none := lookup_none_of_not_mem_keys _ _ h1
  have e2 : size_adjustments.lookup size = none := lookup_none_of_not_mem_keys _ _ h2
  have e3 : industry_multipliers.lookup "Unknown" = none := rfl
  have e4 : size_adjustments.lookup "Unknown" = none := rfl
  refine ⟨by rw [e1]; rfl, by rw [e2]; rfl, ⟨rfl, by decide, by decide⟩, ?_⟩
  intro o cl cv es j
  unfold predictCore
  rw [e1, e2, e3, e4]

theorem unknown_category_defaults_witness :
    ("E-commerce" ∉ industry_multipliers.map Prod.fst
      ∧ "Startup" ∉ size_adjustments.map Prod.fst)
    ∧ (industry_multipliers.lookup "E-commerce").getD 1 = 1
    ∧ (size_adjustments.lookup "Startup").getD 1 = 1 :=
  ⟨⟨by decide, by decide⟩,
    (unknown_category_defaults "E-commerce" "Startup" (by decide) (by decide)).1,
    (unknown_category_defaults "E-commerce" "Startup" (by decide) (by decide)).2.1⟩

/-- C9: training is bookkeeping only — after `train_model` on any training
set the model is in the trained state, and prediction yields the same record
(for the same jitter draws) as a trained model holding no statistics and no
historical data: the output never depends on `model_stats` or
`historical_data`. -/
theorem training_bookkeeping (s : ModelState) (data : List CampaignData)
    (tjs js : ℕ → Jitter) (c : CampaignData) (j : Jitter) :
    (train_model s data tjs).is_trained = true
    ∧ (predict_improvements_step (train_model s data tjs) c j js).2
        = (predict_improvements_step (ModelState.mk true [] none) c j js).2
    ∧ ∀ s1 s2 : ModelState,
        (predict_improvements_step s1 c j js).2 = (predict_improvements_step s2 c j js).2 :=
  ⟨train_model_is_trained s data tjs, rfl, fun s1 s2 => rfl⟩

/-- C10: whenever the prediction computation raises internally (for example
on a non-numeric field), `predict_improvements` does not propagate the
exception but returns the fixed fallback record {15.0, 25.0, 30.0, 0.5,
"default_fallback"}; every call returns either this fallback record or the
successfully computed rule-based record, so no input makes it raise. -/
theorem internal_error_fallback (c : CampaignData) (j : Jitter) (e : Unit)
    (h : predictChecked c j = .error e) :
    predict_improvements c j
      = { open_rate_improvement := 15, click_rate_improvement := 25,
          conversion_rate_improvement := 30, confidence_score := 1/2,
          prediction_method := "default_fallback" }
    ∧ ∀ (c2 : CampaignData) (j2 : Jitter),
        predict_improvements c2 j2 = fallback_predictions
          ∨ ∃ p, predictChecked c2 j2 = .ok p ∧ predict_improvements c2 j2 = p := by
  constructor
  · unfold predict_improvements
    rw [h]
    rfl
  · intro c2 j2
    cases hp : predictChecked c2 j2 with
    | ok p => exact Or.inr ⟨p, rfl, by unfold predict_improvements; rw [hp]⟩
    | error e2 => exact Or.inl (by unfold predict_improvements; rw [hp])

/-- A campaign dict holding a non-numeric open rate, for which the
prediction body raises a `TypeError`. -/
def badCampaign : CampaignData :=
  { emptyCampaign with open_rate := some (.str "n/a") }

theorem internal_error_fallback_witness :
    predictChecked badCampaign ⟨1, 1, 1⟩ = .error ()
    ∧ predict_improvements badCampaign ⟨1, 1, 1⟩
        = { open_rate_improvement := 15, click_rate_improvement := 25,
            conversion_rate_improvement := 30, confidence_score := 1/2,
            prediction_method := "default_fallback" } :=
  ⟨rfl, (internal_error_fallback badCampaign ⟨1, 1, 1⟩ () rfl).1⟩

end MailMind
